import Mathlib

/-!
Verification of the MindDisc risk-scoring backend.

The definitions below are a shallow embedding of the Python sources:
  - src/services/ai_analysis_engine.py  (risk assessment, oversight, LLM parsing)
  - src/models/ai_analysis.py           (static risk-multiplier table)
  - src/models/ai_predictions.py        (prediction coefficient tables)
  - src/models/behavioral_patterns.py   (behavioral pattern matching)
  - src/integrations/sus_integration.py (mocked SUS lookup)
  - src/routes/user.py                  (create_user route skeleton)

Python floats are idealised as exact rationals (ℚ); Python dicts with known
key sets become structures with Option-valued fields (a missing key is none);
raising an exception becomes an Except result.
-/

namespace MindDisc

/-! ## Data model: input dictionaries -/

/-- The disc_results['scores'] sub-dict: per-style DISC scores, possibly absent. -/
structure DiscScores where
  D : Option ℚ
  I : Option ℚ
  S : Option ℚ
  C : Option ℚ
deriving DecidableEq

/-- Python disc_results['scores'].get(style, 0). -/
def DiscScores.get (s : DiscScores) (style : String) : ℚ :=
  if style = "D" then s.D.getD 0
  else if style = "I" then s.I.getD 0
  else if style = "S" then s.S.getD 0
  else if style = "C" then s.C.getD 0
  else 0

/-- The disc_results input dict (fields used by the engine). -/
structure DiscResults where
  primary_style : Option String
  scores : Option DiscScores
deriving DecidableEq

/-- The mental_health_results input dict (fields used by the engine). -/
structure MentalHealthResults where
  phq9_score : Option ℚ
  gad7_score : Option ℚ
  burnout_score : Option ℚ
deriving DecidableEq

/-! ## AIAnalysis.get_risk_multipliers (src/models/ai_analysis.py, lines 84-108) -/

/-- One row of the static risk-multiplier table. -/
structure RiskMultipliers where
  burnout : ℚ
  anxiety : ℚ
  depression : ℚ
deriving DecidableEq

/-- The static table returned by AIAnalysis.get_risk_multipliers, as a lookup:
none models a key absent from the Python dict. -/
def get_risk_multipliers (style : String) : Option RiskMultipliers :=
  if style = "D" then some ⟨1.3, 1.1, 0.9⟩
  else if style = "I" then some ⟨1.1, 1.2, 1.4⟩
  else if style = "S" then some ⟨1.2, 1.4, 1.1⟩
  else if style = "C" then some ⟨1.1, 1.5, 1.3⟩
  else none

/-- Python risk_multipliers.get(primary_style, risk_multipliers['D']):
the fallback is the 'D' row of the same table. -/
def risk_multipliers_lookup (style : String) : RiskMultipliers :=
  (get_risk_multipliers style).getD ⟨1.3, 1.1, 0.9⟩

/-! ## _calculate_risk_assessment (src/services/ai_analysis_engine.py, lines 145-205) -/

/-- adjusted_depression = min(phq9_score/27*100, 100) * multipliers['depression']
(lines 148-162, with get-defaults of 0 for missing scores). -/
def adjusted_depression (disc : DiscResults) (mh : MentalHealthResults) : ℚ :=
  let primary_style := disc.primary_style.getD "D"
  let multipliers := risk_multipliers_lookup primary_style
  let phq9_score := mh.phq9_score.getD 0
  let phq9_normalized := min (phq9_score / 27 * 100) 100
  phq9_normalized * multipliers.depression

/-- adjusted_anxiety = min(gad7_score/21*100, 100) * multipliers['anxiety']
(lines 148-163). -/
def adjusted_anxiety (disc : DiscResults) (mh : MentalHealthResults) : ℚ :=
  let primary_style := disc.primary_style.getD "D"
  let multipliers := risk_multipliers_lookup primary_style
  let gad7_score := mh.gad7_score.getD 0
  let gad7_normalized := min (gad7_score / 21 * 100) 100
  gad7_normalized * multipliers.anxiety

/-- adjusted_burnout = min(burnout_score, 100) * multipliers['burnout']
(lines 148-164). -/
def adjusted_burnout (disc : DiscResults) (mh : MentalHealthResults) : ℚ :=
  let primary_style := disc.primary_style.getD "D"
  let multipliers := risk_multipliers_lookup primary_style
  let burnout_score := mh.burnout_score.getD 0
  let burnout_normalized := min burnout_score 100
  burnout_normalized * multipliers.burnout

/-- The local variable overall_risk_score of _calculate_risk_assessment
(lines 166-172): weights dict gives depression 0.3, anxiety 0.3, burnout 0.4. -/
def overall_risk_score_raw (disc : DiscResults) (mh : MentalHealthResults) : ℚ :=
  adjusted_depression disc mh * 0.3 +
  adjusted_anxiety disc mh * 0.3 +
  adjusted_burnout disc mh * 0.4

/-- The risk_level if/elif ladder of lines 174-182. -/
def risk_level_of (overall_risk_score : ℚ) : String :=
  if overall_risk_score ≤ 25 then "low"
  else if overall_risk_score ≤ 50 then "moderate"
  else if overall_risk_score ≤ 75 then "high"
  else "critical"

/-- Python round(x, 1) idealised on exact rationals: scale by 10,
round half to even, scale back. -/
def round1 (q : ℚ) : ℚ :=
  let x := q * 10
  let f : ℤ := ⌊x⌋
  let r : ℚ := x - f
  let n : ℤ :=
    if r < 1/2 then f
    else if 1/2 < r then f + 1
    else if f % 2 = 0 then f else f + 1
  (n : ℚ) / 10

/-- _identify_risk_factors (lines 431-457). -/
def identify_risk_factors (disc : DiscResults) (mh : MentalHealthResults) : List String :=
  let primary_style := disc.primary_style.getD "D"
  let base :=
    if primary_style = "D" then
      ["Sobrecarga de responsabilidades", "Impaciência com processos", "Isolamento na liderança"]
    else if primary_style = "I" then
      ["Dependência de aprovação social", "Esgotamento emocional", "Superficialidade nas relações"]
    else if primary_style = "S" then
      ["Resistência a mudanças", "Evitação de conflitos", "Sobrecarga silenciosa"]
    else if primary_style = "C" then
      ["Perfeccionismo paralisante", "Autocrítica excessiva", "Rigidez comportamental"]
    else []
  base ++
    (if mh.phq9_score.getD 0 > 14 then ["Sintomas depressivos significativos"] else []) ++
    (if mh.gad7_score.getD 0 > 14 then ["Ansiedade severa"] else []) ++
    (if mh.burnout_score.getD 0 > 70 then ["Alto risco de burnout"] else [])

/-- _identify_protective_factors (lines 459-471). -/
def identify_protective_factors (disc : DiscResults) : List String :=
  let primary_style := disc.primary_style.getD "D"
  if primary_style = "D" then
    ["Capacidade de liderança", "Orientação para resultados", "Tomada de decisão rápida"]
  else if primary_style = "I" then
    ["Habilidades sociais", "Otimismo natural", "Capacidade de inspirar outros"]
  else if primary_style = "S" then
    ["Estabilidade emocional", "Confiabilidade", "Trabalho em equipe"]
  else if primary_style = "C" then
    ["Análise detalhada", "Qualidade do trabalho", "Organização sistemática"]
  else []

/-- The confidence_interval sub-dict of the returned assessment (lines 200-204). -/
structure ConfidenceInterval where
  lower_bound : ℚ
  upper_bound : ℚ
  confidence_level : ℚ
deriving DecidableEq

/-- The individual_risks sub-dict of the returned assessment (lines 191-195). -/
structure IndividualRisks where
  depression_risk : ℚ
  anxiety_risk : ℚ
  burnout_risk : ℚ
deriving DecidableEq

/-- The dict returned by _calculate_risk_assessment (lines 188-205).
algorithm_version is the constant model_version string and is elided. -/
structure RiskAssessment where
  overall_risk_score : ℚ
  risk_level : String
  individual_risks : IndividualRisks
  risk_factors : List String
  protective_factors : List String
  disc_multipliers_applied : RiskMultipliers
  confidence_interval : ConfidenceInterval
deriving DecidableEq

/-- _calculate_risk_assessment (src/services/ai_analysis_engine.py, lines 145-205).
The returned overall_risk_score and individual risks carry Python round(x, 1);
risk_level and the confidence interval are computed from the unrounded score,
exactly as in the source. -/
def calculate_risk_assessment (disc : DiscResults) (mh : MentalHealthResults) :
    RiskAssessment :=
  let primary_style := disc.primary_style.getD "D"
  let multipliers := risk_multipliers_lookup primary_style
  let overall_risk_score := overall_risk_score_raw disc mh
  { overall_risk_score := round1 overall_risk_score
    risk_level := risk_level_of overall_risk_score
    individual_risks :=
      { depression_risk := round1 (adjusted_depression disc mh)
        anxiety_risk := round1 (adjusted_anxiety disc mh)
        burnout_risk := round1 (adjusted_burnout disc mh) }
    risk_factors := identify_risk_factors disc mh
    protective_factors := identify_protective_factors disc
    disc_multipliers_applied := multipliers
    confidence_interval :=
      { lower_bound := max 0 (overall_risk_score - 10)
        upper_bound := min 100 (overall_risk_score + 10)
        confidence_level := 0.85 } }

/-! ## _requires_professional_oversight (lines 473-485) -/

/-- _requires_professional_oversight: any() over the five high-risk criteria. -/
def requires_professional_oversight (risk_assessment : RiskAssessment)
    (mh : MentalHealthResults) : Bool :=
  decide (risk_assessment.overall_risk_score > 75) ||
  (risk_assessment.risk_level == "high" || risk_assessment.risk_level == "critical") ||
  decide (mh.phq9_score.getD 0 ≥ 15) ||
  decide (mh.gad7_score.getD 0 ≥ 15) ||
  decide (mh.burnout_score.getD 0 ≥ 80)

/-! ## _parse_ai_response (src/services/ai_analysis_engine.py, lines 290-326) -/

/-- The whitespace characters removed by Python str.strip(). -/
def isPySpace (c : Char) : Bool :=
  c = ' ' || c = '\t' || c = '\n' || c = '\r' || c = '\x0b' || c = '\x0c'

/-- Python str.strip(): drop leading and trailing whitespace. -/
def pyStrip (s : String) : String :=
  ⟨((s.data.dropWhile isPySpace).reverse.dropWhile isPySpace).reverse⟩

/-- Python str.upper() on one character, for the repertoire this parser
meets: ASCII letters plus the accented Latin letters of the Portuguese
section-header keywords. -/
def pyUpperChar (c : Char) : Char :=
  if c = 'ç' then 'Ç' else if c = 'ã' then 'Ã' else if c = 'õ' then 'Õ'
  else if c = 'á' then 'Á' else if c = 'â' then 'Â' else if c = 'à' then 'À'
  else if c = 'é' then 'É' else if c = 'ê' then 'Ê' else if c = 'í' then 'Í'
  else if c = 'ó' then 'Ó' else if c = 'ô' then 'Ô' else if c = 'ú' then 'Ú'
  else c.toUpper

/-- Python str.upper() as a character list. -/
def pyUpper (s : String) : List Char := s.data.map pyUpperChar

/-- needle is an initial segment of hay. -/
def leadsWith : List Char → List Char → Bool
  | [], _ => true
  | _ :: _, [] => false
  | a :: as, b :: bs => a == b && leadsWith as bs

/-- Python "needle in hay": needle occurs contiguously in hay. -/
def containsSub (hay needle : List Char) : Bool :=
  match hay with
  | [] => needle.isEmpty
  | _ :: t => leadsWith needle hay || containsSub t needle

/-- The three sections the parser recognises. -/
inductive Section3
  | summary
  | insights
  | recommendations
deriving DecidableEq

/-- Which section header, if any, a stripped non-empty line announces:
the keyword-containment elif ladder of lines 307-312. -/
def headerTarget (line : String) : Option Section3 :=
  let up := pyUpper line
  if containsSub up "RESUMO".data || containsSub up "CORRELAÇÃO".data then
    some .summary
  else if containsSub up "INSIGHTS".data || containsSub up "PRINCIPAIS".data then
    some .insights
  else if containsSub up "RECOMENDAÇÕES".data || containsSub up "EVIDÊNCIAS".data then
    some .recommendations
  else none

/-- line.startswith(('-', '•', '*')) or line[0].isdigit() (line 313). -/
def isBulletStart (line : String) : Bool :=
  match line.data with
  | [] => false
  | c :: _ => c = '-' || c = '•' || c = '*' || c.isDigit

/-- line.lstrip('-•*0123456789. ') (lines 315 and 317). -/
def stripBullet (line : String) : String :=
  ⟨line.data.dropWhile (fun c =>
    c = '-' || c = '•' || c = '*' || c.isDigit || c = '.' || c = ' ')⟩

/-- The loop state of _parse_ai_response: accumulated summary text, insight
and recommendation bullets, and the current section. -/
structure ParseState where
  correlation_summary : String
  key_insights : List String
  ai_recommendations : List String
  current_section : Option Section3
deriving DecidableEq

/-- One iteration of the for-loop of _parse_ai_response (lines 302-319). -/
def processLine (st : ParseState) (raw : String) : ParseState :=
  let line := pyStrip raw
  if line = "" then st
  else
    match headerTarget line with
    | some sec => { st with current_section := some sec }
    | none =>
      if isBulletStart line then
        match st.current_section with
        | some .insights =>
          { st with key_insights := st.key_insights ++ [stripBullet line] }
        | some .recommendations =>
          { st with ai_recommendations := st.ai_recommendations ++ [stripBullet line] }
        | _ => st
      else if st.current_section = some .summary ∧ 20 < line.length then
        { st with correlation_summary := st.correlation_summary ++ line ++ " " }
      else st

/-- The full loop of _parse_ai_response over ai_content.split('\n'). -/
def parseFold (ai_content : String) : ParseState :=
  (ai_content.splitOn "\n").foldl processLine ⟨"", [], [], none⟩

/-- The dict returned by _parse_ai_response (lines 321-326). -/
structure ParsedResponse where
  correlation_summary : String
  key_insights : List String
  ai_recommendations : List String
  analysis_quality : String
deriving DecidableEq

/-- _parse_ai_response: run the loop, truncate insights to 5 and
recommendations to 4, grade quality by the untruncated insight count.
The embedding is a total function: the source never raises. -/
def parse_ai_response (ai_content : String) : ParsedResponse :=
  let st := parseFold ai_content
  { correlation_summary := pyStrip st.correlation_summary
    key_insights := st.key_insights.take 5
    ai_recommendations := st.ai_recommendations.take 4
    analysis_quality := if 3 ≤ st.key_insights.length then "high" else "medium" }

/-- Modelled from the claim wording: the most recently seen section header
after a list of lines; blank lines and non-header lines leave it unchanged. -/
def headerStep (cur : Option Section3) (raw : String) : Option Section3 :=
  let line := pyStrip raw
  if line = "" then cur
  else
    match headerTarget line with
    | some sec => some sec
    | none => cur

/-- The most recently seen section header over a whole input. -/
def lastHeader (ai_content : String) : Option Section3 :=
  (ai_content.splitOn "\n").foldl headerStep none

/-! ## AIPredictionsEngine (src/models/ai_predictions.py) -/

/-- One entry of the static prediction_models table: base_weights over the
four DISC styles, mental_health_multiplier, accuracy. -/
structure PredictionModel where
  wD : ℚ
  wI : ℚ
  wS : ℚ
  wC : ℚ
  mental_health_multiplier : ℚ
  accuracy : ℚ
deriving DecidableEq

/-- The static prediction_models table (lines 46-72). -/
def prediction_models : List (String × PredictionModel) :=
  [("burnout_prediction", ⟨0.3, 0.2, -0.1, 0.4, 2.1, 0.89⟩),
   ("anxiety_escalation", ⟨0.1, 0.3, 0.2, 0.5, 1.8, 0.84⟩),
   ("depression_risk", ⟨-0.2, 0.4, 0.1, 0.3, 2.3, 0.87⟩),
   ("performance_decline", ⟨0.2, 0.1, -0.2, 0.3, 1.5, 0.81⟩),
   ("team_conflict_risk", ⟨0.5, -0.1, -0.3, 0.2, 1.2, 0.76⟩)]

/-- One record of historical_data; only overall_risk_score is read
(with default 50). -/
structure HistEntry where
  overall_risk_score : Option ℚ
deriving DecidableEq

/-- _calculate_trend_adjustment (lines 228-242): trend over the last three
historical risk scores, clamped to plus or minus 0.3.  A None historical_data
argument behaves like the empty list.  The source indexes scores[-1] and
scores[0] only in the branch where the list has at least two elements; here
getLastD/headD with dummy defaults realise those indexings. -/
def calculate_trend_adjustment (historical_data : List HistEntry) : ℚ :=
  if historical_data.length < 2 then 0
  else
    let scores := (historical_data.drop (historical_data.length - 3)).map
      (fun h => h.overall_risk_score.getD 50)
    if 2 ≤ scores.length then
      let trend := (scores.getLastD 0 - scores.headD 0) / 100
      max (-0.3) (min 0.3 trend)
    else 0

/-- _determine_confidence_level (lines 244-254). -/
def determine_confidence_level (probability : ℚ) (model_accuracy : ℚ) : String :=
  let confidence_score := probability * model_accuracy
  if confidence_score > 0.8 then "high"
  else if confidence_score > 0.6 then "moderate"
  else "low"

/-- The PredictionResult dataclass (lines 19-28), restricted to the fields the
claims are about; the free-text risk_factors / preventive_actions /
explanation fields do not feed any computation and are elided. -/
structure Prediction where
  prediction_type : String
  timeline_months : ℕ
  probability : ℚ
  confidence_level : String
deriving DecidableEq

/-- _calculate_prediction (lines 159-226).  The source wraps its body in
try/except returning None; the only fallible access is
disc_results['scores'], so a missing scores dict yields none. -/
def calculate_prediction (prediction_type : String) (model : PredictionModel)
    (disc : DiscResults) (mh : MentalHealthResults)
    (historical_data : List HistEntry) : Option Prediction :=
  match disc.scores with
  | none => none
  | some s =>
    let disc_score := (s.get "D" * model.wD + s.get "I" * model.wI +
                       s.get "S" * model.wS + s.get "C" * model.wC) / 100
    let mental_health_score :=
      mh.phq9_score.getD 0 / 27 * 0.4 +
      mh.gad7_score.getD 0 / 21 * 0.3 +
      mh.burnout_score.getD 0 / 100 * 0.3
    let combined_base := disc_score + mental_health_score * model.mental_health_multiplier
    let combined_score :=
      if 1 < historical_data.length then
        combined_base * (1 + calculate_trend_adjustment historical_data)
      else combined_base
    let probability := max 0 (min 1 combined_score)
    let timeline_months : ℕ :=
      if probability > 0.8 then 1
      else if probability > 0.6 then 3
      else if probability > 0.4 then 6
      else 12
    some { prediction_type := prediction_type
           timeline_months := timeline_months
           probability := probability
           confidence_level := determine_confidence_level probability model.accuracy }

/-- The predictions list built by generate_comprehensive_predictions
(lines 98-113): one _calculate_prediction per model, kept only when the
prediction exists and its probability is strictly above the 0.65
confidence_threshold. -/
def generate_predictions_list (disc : DiscResults) (mh : MentalHealthResults)
    (historical_data : List HistEntry) : List Prediction :=
  prediction_models.filterMap (fun nm =>
    match calculate_prediction nm.1 nm.2 disc mh historical_data with
    | some p => if p.probability > 0.65 then some p else none
    | none => none)

/-! ## SUSIntegration.buscar_estabelecimentos_saude
(src/integrations/sus_integration.py, lines 28-175) -/

/-- One mock establishment record; the nested constant address, contact,
schedule and service-list literals feed no computation and are elided. -/
structure Estabelecimento where
  cnes : String
  nome : String
  tipo : String
  subtipo : String
  capacidade_atendimento : ℕ
  distancia_km : ℚ
deriving DecidableEq

/-- The three hard-coded mock records of lines 44-139. -/
def estabelecimentos_mock : List Estabelecimento :=
  [⟨"2269311", "CAPS AD Central", "CAPS", "CAPS AD", 50, 2.3⟩,
   ⟨"2269312", "UBS Vila Madalena", "UBS", "Unidade Básica de Saúde", 100, 5.1⟩,
   ⟨"2269313", "CAPS II Norte", "CAPS", "CAPS II", 75, 8.7⟩]

/-- The echoed parametros_busca sub-dict. -/
structure ParametrosBusca where
  cep : String
  tipo : String
  raio_km : ℤ
deriving DecidableEq

/-- The payload returned by buscar_estabelecimentos_saude. -/
structure BuscaResult where
  success : Bool
  total_encontrados : ℕ
  estabelecimentos : List Estabelecimento
  parametros_busca : ParametrosBusca
  consultado_em : String
  fonte : String
deriving DecidableEq

/-- buscar_estabelecimentos_saude (lines 28-175).  datetime.now() enters as
the extra argument now; nothing in the try-body can raise, so the except
branch is dead and the result is always the success payload. -/
def buscar_estabelecimentos_saude (cep tipo_estabelecimento : String)
    (raio_km : ℤ) (now : String) : BuscaResult :=
  let filtrados1 :=
    if tipo_estabelecimento ≠ "" ∧ tipo_estabelecimento ≠ "TODOS" then
      estabelecimentos_mock.filter
        (fun est => pyUpper est.tipo == pyUpper tipo_estabelecimento)
    else estabelecimentos_mock
  let filtrados2 :=
    filtrados1.filter (fun est => decide (est.distancia_km ≤ (raio_km : ℚ)))
  { success := true
    total_encontrados := filtrados2.length
    estabelecimentos := filtrados2
    parametros_busca := ⟨cep, tipo_estabelecimento, raio_km⟩
    consultado_em := now
    fonte := "CNES/DATASUS" }

/-! ## BehavioralPatternAnalyzer (src/models/behavioral_patterns.py) -/

/-- A DISC scores dict in insertion order. -/
abbrev DiscScoreMap := List (String × ℚ)

/-- Python disc_scores.get(style, 0). -/
def dget (m : DiscScoreMap) (k : String) : ℚ :=
  match m.find? (fun kv => kv.1 == k) with
  | some kv => kv.2
  | none => 0

/-- A single min-or-max DISC indicator with its weight. -/
inductive Criterion
  | cmin (v w : ℚ)
  | cmax (v w : ℚ)
deriving DecidableEq

/-- The static behavioral_patterns table (lines 23-94), with the fields that
feed the computation; the workplace_impacts and recommendations string lists
are copied verbatim into matches and are elided. -/
structure BehavioralPattern where
  name : String
  indicators : List (String × Criterion)
  description : String

/-- The five organisational behavioral patterns. -/
def behavioral_patterns : List BehavioralPattern :=
  [⟨"high_control_pattern", [("D", .cmin 75 0.8), ("S", .cmax 30 0.6)],
    "Tendência a alta necessidade de controle em ambiente de trabalho"⟩,
   ⟨"social_avoidance_pattern", [("C", .cmin 70 0.7), ("I", .cmax 25 0.8)],
    "Tendência à evitação social em contextos profissionais"⟩,
   ⟨"dependency_pattern", [("S", .cmin 80 0.9), ("D", .cmax 20 0.7)],
    "Tendência à dependência de orientação externa"⟩,
   ⟨"perfectionism_pattern", [("C", .cmin 85 0.9)],
    "Tendência ao perfeccionismo que pode impactar produtividade"⟩,
   ⟨"attention_seeking_pattern", [("I", .cmin 85 0.8), ("C", .cmax 25 0.5)],
    "Tendência à busca de atenção em contextos profissionais"⟩]

/-- _matches_pattern (lines 172-188): weighted correspondence against the
indicator count, requiring at least 70 percent. -/
def matches_pattern (disc_scores : DiscScoreMap)
    (indicators : List (String × Criterion)) : Bool :=
  let acc := indicators.foldl
    (fun (mt : ℚ × ℚ) ind =>
      let score := dget disc_scores ind.1
      let matched :=
        match ind.2 with
        | .cmin v w => if score ≥ v then mt.1 + w else mt.1
        | .cmax v w => if score ≤ v then mt.1 + w else mt.1
      (matched, mt.2 + 1))
    (0, 0)
  decide (acc.1 ≥ acc.2 * 0.7)

/-- One entry of the static risk_combinations table (lines 97-113). -/
structure RiskCombination where
  name : String
  pattern : String
  description : String
  intervention : String

/-- The three psychosocial risk combinations. -/
def risk_combinations : List RiskCombination :=
  [⟨"burnout_risk", "Alto D + Alto C + Baixo S",
    "Alto risco de esgotamento profissional",
    "Gestão de carga de trabalho e técnicas de relaxamento"⟩,
   ⟨"isolation_risk", "Alto C + Baixo I + Baixo D",
    "Risco de isolamento social no trabalho",
    "Integração gradual em atividades de equipe"⟩,
   ⟨"anxiety_risk", "Alto S + Alto C + Baixo D",
    "Elevada tendência à ansiedade organizacional",
    "Técnicas de gestão de ansiedade e clareza processual"⟩]

/-- _matches_risk_combination (lines 190-207): substring dispatch over the
pattern string, then hard-coded threshold conjunctions. -/
def matches_risk_combination (disc_scores : DiscScoreMap) (pattern : String) : Bool :=
  if containsSub pattern.data "Alto D + Alto C + Baixo S".data then
    decide (dget disc_scores "D" ≥ 70) && decide (dget disc_scores "C" ≥ 70) &&
      decide (dget disc_scores "S" ≤ 30)
  else if containsSub pattern.data "Alto C + Baixo I + Baixo D".data then
    decide (dget disc_scores "C" ≥ 70) && decide (dget disc_scores "I" ≤ 30) &&
      decide (dget disc_scores "D" ≤ 30)
  else if containsSub pattern.data "Alto S + Alto C + Baixo D".data then
    decide (dget disc_scores "S" ≥ 70) && decide (dget disc_scores "C" ≥ 70) &&
      decide (dget disc_scores "D" ≤ 30)
  else false

/-- Python str.replace('_', ' '). -/
def underscoresToSpaces (s : String) : String :=
  ⟨s.data.map (fun c => if c = '_' then ' ' else c)⟩

/-- Python str.title() on ASCII text: uppercase the first letter of each
alphabetic run, lowercase the rest. -/
def pyTitleGo : Bool → List Char → List Char
  | _, [] => []
  | prevAlpha, c :: t =>
    (if c.isAlpha then (if prevAlpha then c.toLower else c.toUpper) else c) ::
      pyTitleGo c.isAlpha t

/-- Python str.title(). -/
def pyTitle (s : String) : String := ⟨pyTitleGo false s.data⟩

/-- An entry of analysis['identified_patterns'] (lines 138-143); the copied
workplace_impacts and recommendations lists are elided. -/
structure IdentifiedPattern where
  pattern : String
  description : String
deriving DecidableEq

/-- An entry of analysis['risk_combinations'] (lines 148-152). -/
structure MatchedRisk where
  risk_type : String
  description : String
  intervention : String
deriving DecidableEq

/-- One step of Python max(disc_scores, key=disc_scores.get): keep the
earlier key unless the new key's value is strictly greater. -/
def maxKeyStep (m : DiscScoreMap) (best : Option String) (kv : String × ℚ) :
    Option String :=
  match best with
  | none => some kv.1
  | some b => if dget m kv.1 > dget m b then some kv.1 else some b

/-- Python max(disc_scores, key=disc_scores.get): the first key with maximal
value; none models the ValueError Python raises on an empty dict. -/
def maxKey (m : DiscScoreMap) : Option String := m.foldl (maxKeyStep m) none

/-- _generate_behavioral_insights (lines 209-223).  The max() call over the
scores dict raises ValueError on an empty dict, modelled as Except.error. -/
def generate_behavioral_insights (disc_scores : DiscScoreMap)
    (patterns : List IdentifiedPattern) : Except String String :=
  match maxKey disc_scores with
  | none => .error "ValueError: max() arg is an empty sequence"
  | some primary_style =>
    let insights :=
      if patterns ≠ [] then
        ["Perfil " ++ primary_style ++ " apresenta " ++ toString patterns.length ++
           " padrão(ões) comportamental(is) relevante(s) para o ambiente de trabalho."] ++
          (patterns.take 2).map (fun p => "• " ++ p.description)
      else
        ["Perfil " ++ primary_style ++
           " apresenta padrões comportamentais dentro da normalidade organizacional."]
    .ok (String.intercalate " " insights)

/-- The analysis dict returned by analyze_behavioral_patterns; its
workplace_recommendations list is initialised empty and never filled. -/
structure BehavioralAnalysis where
  identified_patterns : List IdentifiedPattern
  risk_combinations : List MatchedRisk
  overall_risk_score : ℕ
  workplace_recommendations : List String
  requires_management_support : Bool
  behavioral_insights : String
deriving DecidableEq

/-- analyze_behavioral_patterns (lines 115-170); the Except.error branch is
the ValueError propagating out of _generate_behavioral_insights. -/
def analyze_behavioral_patterns (disc_scores : DiscScoreMap) :
    Except String BehavioralAnalysis :=
  let identified := behavioral_patterns.filterMap
    (fun p =>
      if matches_pattern disc_scores p.indicators then
        some (⟨pyTitle (underscoresToSpaces p.name), p.description⟩ : IdentifiedPattern)
      else none)
  let risks := risk_combinations.filterMap
    (fun r =>
      if matches_risk_combination disc_scores r.pattern then
        some (⟨pyTitle (underscoresToSpaces r.name), r.description, r.intervention⟩ :
          MatchedRisk)
      else none)
  let overall_risk_score := min 100 (identified.length * 20 + risks.length * 30)
  let requires_management_support :=
    decide (overall_risk_score > 60) || decide (risks.length > 1)
  match generate_behavioral_insights disc_scores identified with
  | .error e => .error e
  | .ok insights =>
    .ok { identified_patterns := identified
          risk_combinations := risks
          overall_risk_score := overall_risk_score
          workplace_recommendations := []
          requires_management_support := requires_management_support
          behavioral_insights := insights }

/-! ## try/except skeletons: analyze_correlation (ai_analysis_engine.py,
lines 57-143) and create_user (src/routes/user.py, lines 20-58) -/

/-- What happened to the SQLAlchemy session by the end of a request. -/
inductive SessionOutcome
  | committed
  | rolledBack
  | untouched
deriving DecidableEq

/-- The dict returned by analyze_correlation; on success the body's payload
(the analysis result dict) is carried opaquely. -/
structure AnalysisResponse where
  success : Bool
  error : Option String
  message : Option String
  analysis_id : Option String
deriving DecidableEq

/-- The try/except skeleton of analyze_correlation: the try-body (steps 1-8,
ending in db.session.commit()) is abstracted by its Except outcome, where
Except.error e models any exception raised inside the try block with message
e.  The except branch rolls the session back and returns the error dict of
lines 137-143. -/
def analyze_correlation (tryBody : Except String String) :
    AnalysisResponse × SessionOutcome :=
  match tryBody with
  | .ok analysis_id =>
    ({ success := true, error := none, message := none, analysis_id := some analysis_id },
     .committed)
  | .error e =>
    ({ success := false, error := some e,
       message := some "Erro durante análise de correlação", analysis_id := none },
     .rolledBack)

/-- A stored user row. -/
structure UserRec where
  name : String
  email : String
  company : Option String
deriving DecidableEq

/-- The database state visible to the user route. -/
structure Db where
  users : List UserRec
  consents : List String
deriving DecidableEq

/-- A flat JSON object, as the request body of create_user. -/
abbrev Json := List (String × String)

/-- Python data.get(k) / data[k] lookup (the latter raising KeyError when
absent). -/
def jget (data : Json) (k : String) : Option String :=
  match data.find? (fun kv => kv.1 == k) with
  | some kv => some kv.2
  | none => none

/-- An HTTP response of the user routes. -/
structure HttpResponse where
  status : ℕ
  error : Option String
  message : Option String
deriving DecidableEq

/-- The try-body of create_user (lines 23-54): look up data['email']
(KeyError when missing), reject duplicates with 400, read data['name']
(KeyError when missing), insert the user and its consent row, commit.
Except.error e models an exception with message e escaping the try block. -/
def create_user_body (data : Json) (db : Db) :
    Except String (HttpResponse × Db × SessionOutcome) := do
  let email ←
    match jget data "email" with
    | some v => Except.ok v
    | none => Except.error "KeyError: email"
  if (db.users.find? (fun u => u.email == email)).isSome then
    return ({ status := 400, error := some "Email já cadastrado", message := none },
            db, .untouched)
  let name ←
    match jget data "name" with
    | some v => Except.ok v
    | none => Except.error "KeyError: name"
  let user : UserRec := { name := name, email := email, company := jget data "company" }
  Except.ok ({ status := 201, error := none, message := some "Usuário criado com sucesso" },
             { users := db.users ++ [user], consents := db.consents ++ [email] },
             .committed)

/-- create_user (lines 20-58): the uniform try/except wrapper.  Any exception
escaping the body yields a 500 JSON error after db.session.rollback(),
leaving the stored data unchanged. -/
def create_user (data : Json) (db : Db) : HttpResponse × Db × SessionOutcome :=
  match create_user_body data db with
  | .ok r => r
  | .error e =>
    ({ status := 500, error := some e, message := none }, db, .rolledBack)

/-! ## Concrete inputs used by witnesses -/

/-- disc_results with primary_style 'C' and no scores sub-dict. -/
def disc_C_max : DiscResults := ⟨some "C", none⟩

/-- A full DISC scores dict with every style at 100. -/
def scores_full : DiscScores := ⟨some 100, some 100, some 100, some 100⟩

/-- disc_results carrying scores_full. -/
def disc_full : DiscResults := ⟨some "D", some scores_full⟩

/-- mental_health_results with every score missing. -/
def mh_zero : MentalHealthResults := ⟨none, none, none⟩

/-- mental_health_results with all three instruments at their documented maxima. -/
def mh_max : MentalHealthResults := ⟨some 27, some 21, some 100⟩

/-- disc_results with primary_style 'D' and no scores sub-dict. -/
def disc_D : DiscResults := ⟨some "D", none⟩

/-- mental_health_results with only burnout_score = 100. -/
def mh_burnout100 : MentalHealthResults := ⟨none, none, some 100⟩

/-! ## Theorems -/

/-- C1: _calculate_risk_assessment computes overall_risk_score as the fixed
linear combination 0.3*adjusted_depression + 0.3*adjusted_anxiety +
0.4*adjusted_burnout of the normalized, multiplier-adjusted scores, with the
multipliers taken from the static table keyed by primary_style, any style
outside D/I/S/C falling back to the 'D' row, and missing input scores
defaulting to 0. -/
theorem overall_risk_score_is_fixed_linear_combination
    (disc : DiscResults) (mh : MentalHealthResults) :
    (overall_risk_score_raw disc mh =
      0.3 * (min (mh.phq9_score.getD 0 / 27 * 100) 100 *
               (risk_multipliers_lookup (disc.primary_style.getD "D")).depression) +
      0.3 * (min (mh.gad7_score.getD 0 / 21 * 100) 100 *
               (risk_multipliers_lookup (disc.primary_style.getD "D")).anxiety) +
      0.4 * (min (mh.burnout_score.getD 0) 100 *
               (risk_multipliers_lookup (disc.primary_style.getD "D")).burnout)) ∧
    (∀ style, style ≠ "D" → style ≠ "I" → style ≠ "S" → style ≠ "C" →
       risk_multipliers_lookup style = risk_multipliers_lookup "D") ∧
    risk_multipliers_lookup "D" = ⟨1.3, 1.1, 0.9⟩ ∧
    risk_multipliers_lookup "I" = ⟨1.1, 1.2, 1.4⟩ ∧
    risk_multipliers_lookup "S" = ⟨1.2, 1.4, 1.1⟩ ∧
    risk_multipliers_lookup "C" = ⟨1.1, 1.5, 1.3⟩ := by
  refine ⟨?_, ?_, rfl, rfl, rfl, rfl⟩
  · simp only [overall_risk_score_raw, adjusted_depression, adjusted_anxiety, adjusted_burnout]
    ring
  · intro style h1 h2 h3 h4
    simp [risk_multipliers_lookup, get_risk_multipliers, h1, h2, h3, h4]

/-- C1 witness: the theorem applied at a concrete input where the fallback
hypotheses of the second conjunct are discharged for style 'X'. -/
theorem overall_risk_score_is_fixed_linear_combination_witness :
    risk_multipliers_lookup "X" = risk_multipliers_lookup "D" :=
  (overall_risk_score_is_fixed_linear_combination disc_D mh_burnout100).2.1 "X"
    (by decide) (by decide) (by decide) (by decide)

/-- C2: the risk_level of _calculate_risk_assessment buckets the (unrounded)
overall_risk_score into exactly one of four tiers: low iff score ≤ 25,
moderate iff 25 < score ≤ 50, high iff 50 < score ≤ 75, critical iff
score > 75. -/
theorem risk_level_threshold_bucketing (disc : DiscResults) (mh : MentalHealthResults) :
    ((calculate_risk_assessment disc mh).risk_level = "low" ↔
       overall_risk_score_raw disc mh ≤ 25) ∧
    ((calculate_risk_assessment disc mh).risk_level = "moderate" ↔
       25 < overall_risk_score_raw disc mh ∧ overall_risk_score_raw disc mh ≤ 50) ∧
    ((calculate_risk_assessment disc mh).risk_level = "high" ↔
       50 < overall_risk_score_raw disc mh ∧ overall_risk_score_raw disc mh ≤ 75) ∧
    ((calculate_risk_assessment disc mh).risk_level = "critical" ↔
       75 < overall_risk_score_raw disc mh) := by
  have hlevel : (calculate_risk_assessment disc mh).risk_level
      = risk_level_of (overall_risk_score_raw disc mh) := rfl
  rw [hlevel]
  generalize overall_risk_score_raw disc mh = s
  unfold risk_level_of
  split_ifs with h1 h2 h3 <;>
    refine ⟨?_, ?_, ?_, ?_⟩ <;> simp_all <;> intros <;> linarith

/-- C4: at primary_style 'C' with phq9 = 27, gad7 = 21 and burnout = 100 (all
within the documented ranges), the overall risk score is 128 > 100 while the
returned confidence_interval upper bound is capped at 100, strictly below the
score: the score lies outside its own confidence interval. -/
theorem risk_score_exceeds_own_confidence_interval :
    mh_max.phq9_score.getD 0 ≤ 27 ∧ mh_max.gad7_score.getD 0 ≤ 21 ∧
    mh_max.burnout_score.getD 0 ≤ 100 ∧
    overall_risk_score_raw disc_C_max mh_max = 128 ∧
    (100 : ℚ) < overall_risk_score_raw disc_C_max mh_max ∧
    (calculate_risk_assessment disc_C_max mh_max).overall_risk_score = 128 ∧
    (calculate_risk_assessment disc_C_max mh_max).confidence_interval.upper_bound = 100 ∧
    (calculate_risk_assessment disc_C_max mh_max).confidence_interval.upper_bound <
      overall_risk_score_raw disc_C_max mh_max := by
  have hC : risk_multipliers_lookup "C" = ⟨1.1, 1.5, 1.3⟩ := rfl
  have hraw : overall_risk_score_raw disc_C_max mh_max = 128 := by
    norm_num [overall_risk_score_raw, adjusted_depression, adjusted_anxiety, adjusted_burnout,
      disc_C_max, mh_max, min_def, hC]
  refine ⟨by norm_num [mh_max], by norm_num [mh_max], by norm_num [mh_max], hraw,
    by rw [hraw]; norm_num, ?_, ?_, ?_⟩
  · show round1 (overall_risk_score_raw disc_C_max mh_max) = 128
    rw [hraw]
    norm_num [round1]
  · show min 100 (overall_risk_score_raw disc_C_max mh_max + 10) = 100
    rw [hraw]
    norm_num [min_def]
  · show min 100 (overall_risk_score_raw disc_C_max mh_max + 10) <
      overall_risk_score_raw disc_C_max mh_max
    rw [hraw]
    norm_num [min_def]

/-- C5: whenever the assessment produced by _calculate_risk_assessment has
risk_level 'high' or 'critical', _requires_professional_oversight on that
assessment returns True, regardless of the individual mental-health scores. -/
theorem high_or_critical_requires_oversight (disc : DiscResults) (mh : MentalHealthResults)
    (h : (calculate_risk_assessment disc mh).risk_level = "high" ∨
         (calculate_risk_assessment disc mh).risk_level = "critical") :
    requires_professional_oversight (calculate_risk_assessment disc mh) mh = true := by
  unfold requires_professional_oversight
  rcases h with h | h <;> simp [h]

/-- C5 witness: at primary_style 'D' with burnout 100 the level is 'high' and
oversight is required. -/
theorem high_or_critical_requires_oversight_witness :
    requires_professional_oversight (calculate_risk_assessment disc_D mh_burnout100)
      mh_burnout100 = true :=
  high_or_critical_requires_oversight disc_D mh_burnout100 (Or.inl (by
    show risk_level_of (overall_risk_score_raw disc_D mh_burnout100) = "high"
    have hD : risk_multipliers_lookup "D" = ⟨1.3, 1.1, 0.9⟩ := rfl
    have h52 : overall_risk_score_raw disc_D mh_burnout100 = 52 := by
      norm_num [overall_risk_score_raw, adjusted_depression, adjusted_anxiety, adjusted_burnout,
        disc_D, mh_burnout100, min_def, hD]
    rw [h52]
    norm_num [risk_level_of]))

/-- C6: _calculate_risk_assessment is a pure, stateless function of its two
input dicts: equal inputs give equal returned dicts, with no hidden state,
randomness or time dependence in the embedding. -/
theorem risk_assessment_deterministic (d₁ d₂ : DiscResults) (m₁ m₂ : MentalHealthResults)
    (hd : d₁ = d₂) (hm : m₁ = m₂) :
    calculate_risk_assessment d₁ m₁ = calculate_risk_assessment d₂ m₂ := by
  rw [hd, hm]

/-- C7: each per-model prediction probability of _calculate_prediction is the
dot product of the DISC scores with the model's static base_weights divided by
100, plus the normalized mental-health score times the model's static
mental_health_multiplier, optionally scaled by a historical trend factor
bounded to plus or minus 30 percent, clamped to [0, 1]; and the predictions
list of generate_comprehensive_predictions keeps a prediction only when its
probability strictly exceeds the 0.65 confidence threshold. -/
theorem prediction_probability_formula_and_threshold
    (name : String) (model : PredictionModel) (disc : DiscResults)
    (mh : MentalHealthResults) (hist : List HistEntry) (s : DiscScores)
    (hs : disc.scores = some s) :
    ((calculate_prediction name model disc mh hist).map Prediction.probability =
      some (max 0 (min 1
        (((s.get "D" * model.wD + s.get "I" * model.wI +
           s.get "S" * model.wS + s.get "C" * model.wC) / 100 +
          (mh.phq9_score.getD 0 / 27 * 0.4 + mh.gad7_score.getD 0 / 21 * 0.3 +
           mh.burnout_score.getD 0 / 100 * 0.3) * model.mental_health_multiplier) *
         (if 1 < hist.length then 1 + calculate_trend_adjustment hist else 1))))) ∧
    |calculate_trend_adjustment hist| ≤ 0.3 ∧
    (∀ p ∈ generate_predictions_list disc mh hist, p.probability > 0.65) := by
  refine ⟨?_, ?_, ?_⟩
  · have hcomb : ∀ (b t : ℚ) (c : Prop) [Decidable c],
        (if c then b * (1 + t) else b) = b * (if c then 1 + t else 1) := by
      intro b t c inst
      split <;> ring
    simp only [calculate_prediction, hs, Option.map_some']
    rw [hcomb]
  · have habs : ∀ t : ℚ, |max (-0.3) (min 0.3 t)| ≤ 0.3 := by
      intro t
      rw [abs_le]
      exact ⟨le_max_left _ _, max_le (by norm_num) (min_le_left _ _)⟩
    simp only [calculate_trend_adjustment]
    split
    · norm_num
    · split
      · exact habs _
      · norm_num
  · intro p hp
    simp only [generate_predictions_list, List.mem_filterMap] at hp
    obtain ⟨nm, _hmem, hnm⟩ := hp
    cases hc : calculate_prediction nm.1 nm.2 disc mh hist with
    | none => simp [hc] at hnm
    | some q =>
      simp only [hc] at hnm
      split at hnm
      · cases hnm
        assumption
      · cases hnm

/-- C7 witness: the theorem applied at a concrete full-scores input with empty
history, its hypothesis discharged by rfl. -/
theorem prediction_probability_formula_and_threshold_witness :
    disc_full.scores = some scores_full ∧ |calculate_trend_adjustment []| ≤ 0.3 :=
  ⟨rfl, (prediction_probability_formula_and_threshold "burnout_prediction"
    ⟨0.3, 0.2, -0.1, 0.4, 2.1, 0.89⟩ disc_full mh_zero [] scores_full rfl).2.1⟩

/-- Helper: each loop iteration updates current_section exactly as the
most-recently-seen-header step does. -/
theorem processLine_current_section (st : ParseState) (raw : String) :
    (processLine st raw).current_section = headerStep st.current_section raw := by
  rcases st with ⟨sum, ins, recs, cur⟩
  unfold processLine headerStep
  by_cases hempty : pyStrip raw = ""
  · simp [hempty]
  · cases hh : headerTarget (pyStrip raw) with
    | some sec => simp [hempty, hh]
    | none =>
      by_cases hb : isBulletStart (pyStrip raw) = true
      · rcases cur with _ | sec
        · simp [hempty, hh, hb]
        · cases sec <;> simp [hempty, hh, hb]
      · simp only [Bool.not_eq_true] at hb
        simp [hempty, hh, hb, apply_ite ParseState.current_section]

/-- Helper: the loop's current_section over any line list is the fold of the
header step from the initial section. -/
theorem foldl_current_section (lines : List String) (st : ParseState) :
    (lines.foldl processLine st).current_section =
      lines.foldl headerStep st.current_section := by
  induction lines generalizing st with
  | nil => rfl
  | cons l t ih => simp only [List.foldl_cons, ih, processLine_current_section]

/-- Helper: a stripped non-empty, non-header bullet line is appended to the
list selected by the current section, and to no other. -/
theorem processLine_bullet (st : ParseState) (raw : String)
    (hne : pyStrip raw ≠ "") (hh : headerTarget (pyStrip raw) = none)
    (hb : isBulletStart (pyStrip raw) = true) :
    (processLine st raw).key_insights =
      st.key_insights ++
        (if st.current_section = some .insights then [stripBullet (pyStrip raw)] else []) ∧
    (processLine st raw).ai_recommendations =
      st.ai_recommendations ++
        (if st.current_section = some .recommendations then [stripBullet (pyStrip raw)]
         else []) := by
  rcases st with ⟨sum, ins, recs, cur⟩
  simp only [processLine, hh, hb, if_neg hne, if_true]
  rcases cur with _ | sec
  · simp
  · cases sec <;> simp

/-- C8: _parse_ai_response always returns at most 5 key_insights and at most
4 ai_recommendations; analysis_quality is 'high' exactly when at least 3
insights were extracted (before truncation) and 'medium' otherwise; the
function is total (never raises); and a bullet or numbered line is appended
to the insight or recommendation list according to the most recently seen
section header, which the loop tracks faithfully. -/
theorem parse_ai_response_bounds_and_sectioning (s : String) (st : ParseState)
    (raw : String) (hne : pyStrip raw ≠ "")
    (hh : headerTarget (pyStrip raw) = none)
    (hb : isBulletStart (pyStrip raw) = true) :
    (parse_ai_response s).key_insights.length ≤ 5 ∧
    (parse_ai_response s).ai_recommendations.length ≤ 4 ∧
    ((parse_ai_response s).analysis_quality = "high" ↔
       3 ≤ (parseFold s).key_insights.length) ∧
    ((parse_ai_response s).analysis_quality = "medium" ↔
       (parseFold s).key_insights.length < 3) ∧
    (parseFold s).current_section = lastHeader s ∧
    (processLine st raw).key_insights =
      st.key_insights ++
        (if st.current_section = some .insights then [stripBullet (pyStrip raw)] else []) ∧
    (processLine st raw).ai_recommendations =
      st.ai_recommendations ++
        (if st.current_section = some .recommendations then [stripBullet (pyStrip raw)]
         else []) ∧
    (processLine st raw).current_section = st.current_section := by
  refine ⟨?_, ?_, ?_, ?_, ?_, (processLine_bullet st raw hne hh hb).1,
    (processLine_bullet st raw hne hh hb).2, ?_⟩
  · simp only [parse_ai_response]
    exact (List.length_take 5 _).le.trans (min_le_left _ _)
  · simp only [parse_ai_response]
    exact (List.length_take 4 _).le.trans (min_le_left _ _)
  · simp only [parse_ai_response]
    split_ifs with h <;> simp [h]
  · simp only [parse_ai_response]
    split_ifs with h <;> (simp [h, Nat.lt_iff_add_one_le]; try omega)
  · exact foldl_current_section _ _
  · rw [processLine_current_section]
    unfold headerStep
    rw [if_neg hne, hh]

/-- C8 witness: the theorem applied with a concrete input string, state and
bullet line, its hypotheses discharged by decide. -/
theorem parse_ai_response_bounds_and_sectioning_witness :
    pyStrip "- x" ≠ "" ∧
      (parseFold "INSIGHTS:").current_section = lastHeader "INSIGHTS:" :=
  ⟨by decide,
   (parse_ai_response_bounds_and_sectioning "INSIGHTS:" ⟨"", [], [], some .insights⟩
      "- x" (by decide) (by decide) (by decide)).2.2.2.2.1⟩

/-- C6 witness: two calls at the same concrete input agree. -/
theorem risk_assessment_deterministic_witness :
    calculate_risk_assessment disc_D mh_burnout100 =
      calculate_risk_assessment disc_D mh_burnout100 :=
  risk_assessment_deterministic disc_D disc_D mh_burnout100 mh_burnout100 rfl rfl

/-- C3: the analysis entry point and the CRUD routes uniformly catch all
exceptions: an exception inside analyze_correlation is not propagated but
yields success=False carrying the error message after a session rollback, and
an exception inside create_user yields a JSON 500 error with the message
after a rollback, leaving the stored data unchanged. -/
theorem routes_catch_all_exceptions
    (body : Except String String) (e : String) (hbody : body = Except.error e)
    (data : Json) (db : Db) (e2 : String)
    (hdata : create_user_body data db = Except.error e2) :
    (analyze_correlation body).1.success = false ∧
    (analyze_correlation body).1.error = some e ∧
    (analyze_correlation body).2 = SessionOutcome.rolledBack ∧
    (create_user data db).1.status = 500 ∧
    (create_user data db).1.error = some e2 ∧
    (create_user data db).2.1 = db ∧
    (create_user data db).2.2 = SessionOutcome.rolledBack := by
  subst hbody
  refine ⟨rfl, rfl, rfl, ?_, ?_, ?_, ?_⟩ <;> simp [create_user, hdata]

/-- C3 witness: a failing body and a request body without an email key both
land in the uniform error handler. -/
theorem routes_catch_all_exceptions_witness :
    (analyze_correlation (Except.error "boom")).1.success = false ∧
      (create_user [] ⟨[], []⟩).1.status = 500 :=
  ⟨(routes_catch_all_exceptions (Except.error "boom") "boom" rfl [] ⟨[], []⟩
      "KeyError: email" rfl).1,
   (routes_catch_all_exceptions (Except.error "boom") "boom" rfl [] ⟨[], []⟩
      "KeyError: email" rfl).2.2.2.1⟩

/-- C9: the SUS integration returns only hard-coded data: for every cep, type
and radius the result is a success payload whose estabelecimentos list is the
fixed mock records filtered by establishment type and by distance, hence a
sublist of the three literals, and the cep argument influences nothing in the
result except the echoed parametros_busca. -/
theorem sus_lookup_is_static_mock (cep tipo : String) (raio : ℤ) (now cep2 : String) :
    (buscar_estabelecimentos_saude cep tipo raio now).success = true ∧
    (buscar_estabelecimentos_saude cep tipo raio now).estabelecimentos =
      ((if tipo ≠ "" ∧ tipo ≠ "TODOS" then
          estabelecimentos_mock.filter (fun est => pyUpper est.tipo == pyUpper tipo)
        else estabelecimentos_mock).filter
          (fun est => decide (est.distancia_km ≤ (raio : ℚ)))) ∧
    List.Sublist (buscar_estabelecimentos_saude cep tipo raio now).estabelecimentos
      estabelecimentos_mock ∧
    (buscar_estabelecimentos_saude cep tipo raio now).parametros_busca.cep = cep ∧
    buscar_estabelecimentos_saude cep2 tipo raio now =
      { buscar_estabelecimentos_saude cep tipo raio now with
          parametros_busca := ⟨cep2, tipo, raio⟩ } := by
  refine ⟨rfl, rfl, ?_, rfl, rfl⟩
  show List.Sublist
      ((if tipo ≠ "" ∧ tipo ≠ "TODOS" then
          estabelecimentos_mock.filter (fun est => pyUpper est.tipo == pyUpper tipo)
        else estabelecimentos_mock).filter
          (fun est => decide (est.distancia_km ≤ (raio : ℚ))))
      estabelecimentos_mock
  refine List.Sublist.trans (List.filter_sublist _) ?_
  split
  · exact List.filter_sublist _
  · exact List.Sublist.refl _

/-- Helper: folding the max-key step from a some accumulator stays some. -/
theorem foldl_maxKeyStep_some (m : DiscScoreMap) (l : List (String × ℚ)) (b : String) :
    ∃ k, l.foldl (maxKeyStep m) (some b) = some k := by
  induction l generalizing b with
  | nil => exact ⟨b, rfl⟩
  | cons kv t ih =>
    have hstep : maxKeyStep m (some b) kv =
        if dget m kv.1 > dget m b then some kv.1 else some b := rfl
    rw [List.foldl_cons, hstep]
    split_ifs with h
    · exact ih kv.1
    · exact ih b

/-- Helper: a non-empty scores dict has a maximal key. -/
theorem maxKey_of_ne_nil (m : DiscScoreMap) (h : m ≠ []) : ∃ k, maxKey m = some k := by
  rcases m with _ | ⟨kv, t⟩
  · exact absurd rfl h
  · show ∃ k, (kv :: t).foldl (maxKeyStep (kv :: t)) none = some k
    rw [List.foldl_cons]
    exact foldl_maxKeyStep_some (kv :: t) t kv.1

/-- C10: for every non-empty disc_scores dict analyze_behavioral_patterns
returns normally, with overall_risk_score = min(100, 20 times the number of
identified patterns plus 30 times the number of matched risk combinations) —
hence at most 100 — and requires_management_support true exactly when that
score exceeds 60 or more than one risk combination matched; on the empty dict
the function raises, because _generate_behavioral_insights takes max over an
empty dict. -/
theorem behavioral_patterns_score_and_empty_raises :
    (∀ disc_scores : DiscScoreMap, disc_scores ≠ [] →
      ∃ a, analyze_behavioral_patterns disc_scores = Except.ok a ∧
        a.overall_risk_score =
          min 100 (a.identified_patterns.length * 20 + a.risk_combinations.length * 30) ∧
        a.overall_risk_score ≤ 100 ∧
        (a.requires_management_support = true ↔
          60 < a.overall_risk_score ∨ 1 < a.risk_combinations.length)) ∧
    analyze_behavioral_patterns [] =
      Except.error "ValueError: max() arg is an empty sequence" := by
  constructor
  · intro m hm
    obtain ⟨k, hk⟩ := maxKey_of_ne_nil m hm
    simp only [analyze_behavioral_patterns, generate_behavioral_insights, hk]
    refine ⟨_, rfl, rfl, min_le_left _ _, ?_⟩
    simp [Bool.or_eq_true, decide_eq_true_eq]
  · rfl

/-- C10 witness: the theorem applied at the one-key dict D=80, the
non-emptiness hypothesis discharged concretely. -/
theorem behavioral_patterns_score_witness :
    ([(("D" : String), (80 : ℚ))] : DiscScoreMap) ≠ [] ∧
    (∃ a, analyze_behavioral_patterns [(("D" : String), (80 : ℚ))] = Except.ok a ∧
      a.overall_risk_score =
        min 100 (a.identified_patterns.length * 20 + a.risk_combinations.length * 30) ∧
      a.overall_risk_score ≤ 100 ∧
      (a.requires_management_support = true ↔
        60 < a.overall_risk_score ∨ 1 < a.risk_combinations.length)) :=
  ⟨List.cons_ne_nil _ _,
   behavioral_patterns_score_and_empty_raises.1 _ (List.cons_ne_nil _ _)⟩

end MindDisc
